import Mathlib

/-!
Verification of the ComPath-Utils abstract manager.

Shallow embedding of `src/compath_utils/manager.py` (class `CompathManager`)
together with the data model of `src/compath_utils/models.py` and the test
fixture of `tests/test_manager.py`.  The database is modelled as an in-memory
state (a list of protein rows and a list of pathway rows); SQLAlchemy queries
become list filters, `one_or_none` becomes an `Except` over at-most-one-match,
and a Python `AttributeError` raised by calling a method on `None` becomes an
explicit error value.
-/

namespace CompathUtils

/-- Error outcomes of the embedded query helpers.
`multipleResultsFound` models the SQLAlchemy `MultipleResultsFound` raised by
`one_or_none`; `noneAttributeError` models a Python `AttributeError` raised by
invoking a method on `None`. -/
inductive DBError where
  | multipleResultsFound
  | noneAttributeError
deriving DecidableEq, Repr

/-- A protein row.  `hgnc_symbol` is the column of the same name.
Modelled from the spec: `get_pathway_ids() -> iterable of pathway identifiers`
is abstract in `models.py` (`CompathProtein.get_pathways_ids`), so the
identifiers of the pathways a protein belongs to are stored here as the field
`pathway_ids`; the accessor `get_pathways_ids` below returns it. -/
structure Protein where
  id : Nat
  hgnc_symbol : String
  pathway_ids : List String
deriving DecidableEq, Repr

/-- Embeds `CompathProtein.get_pathways_ids`: the identifiers of the pathways
associated with this protein. -/
def Protein.get_pathways_ids (p : Protein) : List String :=
  p.pathway_ids

/-- A pathway row.  `resource_id` is the standard pathway identifier column
(`pathway_model_identifier_column`, e.g. `test_id` in the test fixture),
`name` the pathway name column, and `proteins` the member-protein relation. -/
structure Pathway where
  resource_id : String
  name : String
  proteins : List Protein
deriving DecidableEq, Repr

/-- Modelled from the spec: `CompathPathway.get_gene_set` is abstract in
`models.py`; per the spec data-model invariant the gene set of a pathway is
exactly the set of distinct gene symbols among its member proteins. -/
def Pathway.get_gene_set (pw : Pathway) : Finset String :=
  (pw.proteins.map Protein.hgnc_symbol).toFinset

/-- The database state visible to the manager: the protein table and the
pathway table. -/
structure DB where
  proteins : List Protein
  pathways : List Pathway
deriving DecidableEq, Repr

/-- The SQLAlchemy method `Query.one_or_none`: `none` for zero rows, the row for one,
and a `MultipleResultsFound` error otherwise. -/
def one_or_none {α : Type} : List α → Except DBError (Option α)
  | [] => Except.ok none
  | [a] => Except.ok (some a)
  | _ :: _ :: _ => Except.error DBError.multipleResultsFound

/-- Embeds `CompathManager.count_pathways`. -/
def count_pathways (db : DB) : Nat :=
  db.pathways.length

/-- Embeds `CompathManager.count_proteins`. -/
def count_proteins (db : DB) : Nat :=
  db.proteins.length

/-- Embeds `CompathManager.is_populated`: `0 < self._count_model(self.pathway_model)`. -/
def is_populated (db : DB) : Bool :=
  decide (0 < count_pathways db)

/-- Embeds `CompathManager.get_protein_by_hgnc_symbol`: filter the protein table by
the symbol column, then `one_or_none`. -/
def get_protein_by_hgnc_symbol (db : DB) (hgnc_symbol : String) :
    Except DBError (Option Protein) :=
  one_or_none (db.proteins.filter (fun p => decide (p.hgnc_symbol = hgnc_symbol)))

/-- Embeds `CompathManager._query_proteins_in_hgnc_list`: the protein rows whose
symbol is in the queried collection (`hgnc_symbol.in_(gene_set)`). -/
def _query_proteins_in_hgnc_list (db : DB) (gene_set : List String) : List Protein :=
  db.proteins.filter (fun p => decide (p.hgnc_symbol ∈ gene_set))

/-- Embeds `CompathManager.get_pathway_by_id`: filter the pathway table by the
standard identifier column, then `one_or_none`. -/
def get_pathway_by_id (db : DB) (pathway_id : String) :
    Except DBError (Option Pathway) :=
  one_or_none (db.pathways.filter (fun pw => decide (pw.resource_id = pathway_id)))

/-- Embeds `CompathManager.get_pathway_by_name`: call `.all()` on the name filter, `None`
when the result list is empty, its first element otherwise. -/
def get_pathway_by_name (db : DB) (pathway_name : String) : Option Pathway :=
  (db.pathways.filter (fun pw => decide (pw.name = pathway_name))).head?

/-- The body of the `for pathway_id in pathway_ids` loop of
`CompathManager.query_gene`: one `(pathway_id, pathway.name, len(gene_set))`
triple per resolvable identifier, a `None` pathway being skipped by the
explicit `if pathway is None: continue`. -/
def query_gene_aux (db : DB) : List String → Except DBError (List (String × String × Nat))
  | [] => Except.ok []
  | pid :: rest =>
    match get_pathway_by_id db pid with
    | Except.error e => Except.error e
    | Except.ok none => query_gene_aux db rest
    | Except.ok (some pw) =>
      match query_gene_aux db rest with
      | Except.error e => Except.error e
      | Except.ok tail => Except.ok ((pid, pw.name, pw.get_gene_set.card) :: tail)

/-- Embeds `CompathManager.query_gene`: single-symbol lookup via
`get_protein_by_hgnc_symbol`, then `protein.get_pathways_ids()` — which, when
the lookup returned `None`, is a Python `AttributeError`. -/
def query_gene (db : DB) (hgnc_gene_symbol : String) :
    Except DBError (List (String × String × Nat)) :=
  match get_protein_by_hgnc_symbol db hgnc_gene_symbol with
  | Except.error e => Except.error e
  | Except.ok none => Except.error DBError.noneAttributeError
  | Except.ok (some protein) => query_gene_aux db protein.get_pathways_ids

/-- Keys of a Python `Counter` built from a list: each distinct element once,
in order of first occurrence. -/
def ordered_keys (l : List String) : List String :=
  l.foldl (fun acc x => if x ∈ acc then acc else acc ++ [x]) []

/-- Embeds `Counter(iterable).items()`: each distinct element paired with its
multiplicity, in order of first occurrence. -/
def counter_items (l : List String) : List (String × Nat) :=
  (ordered_keys l).map (fun k => (k, l.count k))

/-- One entry of the `enrichment_results` dictionary built by
`CompathManager.query_gene_set`. -/
structure EnrichmentRecord where
  pathway_id : String
  pathway_name : String
  mapped_proteins : Nat
  pathway_size : Nat
  pathway_gene_set : Finset String
deriving DecidableEq

/-- The `for pathway_id, proteins_mapped in pathway_counter.items()` loop of
`CompathManager.query_gene_set`: unlike `query_gene`, there is no `None`
check, so `pathway.get_gene_set()` on a failed lookup is an
`AttributeError`. -/
def query_gene_set_aux (db : DB) :
    List (String × Nat) → Except DBError (List (String × EnrichmentRecord))
  | [] => Except.ok []
  | (pid, cnt) :: rest =>
    match get_pathway_by_id db pid with
    | Except.error e => Except.error e
    | Except.ok none => Except.error DBError.noneAttributeError
    | Except.ok (some pw) =>
      match query_gene_set_aux db rest with
      | Except.error e => Except.error e
      | Except.ok tail =>
        Except.ok ((pid,
          { pathway_id := pid
            pathway_name := pw.name
            mapped_proteins := cnt
            pathway_size := pw.get_gene_set.card
            pathway_gene_set := pw.get_gene_set }) :: tail)

/-- Embeds `CompathManager.query_gene_set`: bulk-resolve the symbols, gather each
resolved protein, gather its pathway identifiers, count occurrences with a `Counter`
over the flattened lists, and emit one record per counted identifier. -/
def query_gene_set (db : DB) (hgnc_gene_symbols : List String) :
    Except DBError (List (String × EnrichmentRecord)) :=
  query_gene_set_aux db
    (counter_items
      (((_query_proteins_in_hgnc_list db hgnc_gene_symbols).map
          Protein.get_pathways_ids).flatten))

/-- The gene-symbol set comprehension
`{protein.hgnc_symbol for protein in pathway.proteins}` of
`CompathManager.export_gene_sets`. -/
def pathway_symbol_set (pw : Pathway) : Finset String :=
  (pw.proteins.map Protein.hgnc_symbol).toFinset

/-- Insertion into a Python dict rendered as an association list: an existing
key keeps its position and gets the new value, a fresh key is appended. -/
def dict_insert {α : Type} : List (String × α) → String → α → List (String × α)
  | [], k, v => [(k, v)]
  | (k2, v2) :: rest, k, v =>
    if k2 = k then (k, v) :: rest else (k2, v2) :: dict_insert rest k v

/-- Embeds `CompathManager.export_gene_sets`: the dict comprehension
`{pathway.name: {protein.hgnc_symbol for protein in pathway.proteins} for
pathway in self._query_pathway().all()}`. -/
def export_gene_sets (db : DB) : List (String × Finset String) :=
  db.pathways.foldl (fun acc pw => dict_insert acc pw.name (pathway_symbol_set pw)) []

/-- The two error kinds of `compath_utils.exc` used by the constructor
check. -/
inductive CompathManagerError where
  | pathwayModelError
  | proteinModelError
deriving DecidableEq, Repr

/-- The class-level model attributes a `CompathManager` subclass must bind:
whether `pathway_model` and `protein_model` are set (truthy and not `...`). -/
structure ManagerConfig where
  pathway_model_is_set : Bool
  protein_model_is_set : Bool
deriving DecidableEq, Repr

/-- Embeds `CompathManager.__init__`: raise `CompathManagerPathwayModelError` when
`pathway_model` is unset, else `CompathManagerProteinModelError` when
`protein_model` is unset, else succeed. -/
def manager_init (cfg : ManagerConfig) : Except CompathManagerError Unit :=
  if !cfg.pathway_model_is_set then Except.error CompathManagerError.pathwayModelError
  else if !cfg.protein_model_is_set then Except.error CompathManagerError.proteinModelError
  else Except.ok ()

/-! ## The test fixture of `tests/test_manager.py` (`TestManager.populate`) -/

/-- Fixture protein `p1` (symbol HGNC:0, member of pathway test:0). -/
def p1 : Protein := ⟨1, "HGNC:0", ["test:0"]⟩

/-- Fixture protein `p2` (symbol HGNC:1, member of pathway test:0). -/
def p2 : Protein := ⟨2, "HGNC:1", ["test:0"]⟩

/-- Fixture protein `p3` (symbol HGNC:2, member of both pathways). -/
def p3 : Protein := ⟨3, "HGNC:2", ["test:0", "test:1"]⟩

/-- Fixture protein `p4` (symbol HGNC:3, member of pathway test:1). -/
def p4 : Protein := ⟨4, "HGNC:3", ["test:1"]⟩

/-- Fixture pathway `b1` (identifier test:0, name Pathway 0, member proteins
`[p1, p2, p3]`). -/
def b1 : Pathway := ⟨"test:0", "Pathway 0", [p1, p2, p3]⟩

/-- Fixture pathway `b2` (identifier test:1, name Pathway 1, member proteins
`[p3, p4]`). -/
def b2 : Pathway := ⟨"test:1", "Pathway 1", [p3, p4]⟩

/-- The populated fixture database. -/
def fixtureDB : DB := ⟨[p1, p2, p3, p4], [b1, b2]⟩


/-- Lookup in a Python dict rendered as an association list: the value at the
first (and, under the dict key invariant, only) entry with the given key. -/
def dict_lookup {α : Type} : List (String × α) → String → Option α
  | [], _ => none
  | (k, v) :: rest, nm => if nm = k then some v else dict_lookup rest nm

/-- A protein row used by the duplicate-name database below. -/
def pX : Protein := ⟨5, "X", []⟩

/-- A second protein row used by the duplicate-name database below. -/
def pY : Protein := ⟨6, "Y", []⟩

/-- A database with two distinct pathways sharing the non-unique name `N`. -/
def collideDB : DB := ⟨[], [⟨"a", "N", [pX]⟩, ⟨"b", "N", [pY]⟩]⟩

/-- A database whose single protein references a pathway identifier that
resolves to no pathway row (a dangling reference). -/
def danglingDB : DB := ⟨[⟨1, "G", ["ghost"]⟩], []⟩

/-- The last pathway of a list bearing a given name, mirroring the
last-write-wins behaviour of a Python dict comprehension keyed by name. -/
def last_with_name (nm : String) : List Pathway → Option Pathway
  | [] => none
  | pw :: rest =>
    match last_with_name nm rest with
    | some pw2 => some pw2
    | none => if pw.name = nm then some pw else none

instance {ε α : Type} [DecidableEq ε] [DecidableEq α] : DecidableEq (Except ε α) :=
  fun x y =>
    match x, y with
    | Except.ok a, Except.ok b => decidable_of_iff (a = b) (by simp)
    | Except.ok _, Except.error _ => isFalse (by simp)
    | Except.error _, Except.ok _ => isFalse (by simp)
    | Except.error e, Except.error f => decidable_of_iff (e = f) (by simp)

/-! ## Helper lemmas -/

/-- Taking the head of a filtered list is searching for the first match. -/
theorem head?_filter_eq_find? {α : Type} (p : α → Bool) (l : List α) :
    (l.filter p).head? = l.find? p := by
  induction l with
  | nil => rfl
  | cons a t ih => cases hp : p a <;> simp [List.filter_cons, List.find?_cons, hp, ih]

/-! ## Claims -/

/-- C4: constructing a manager with `pathway_model` unset raises the
pathway-model-missing error kind, with `pathway_model` set but
`protein_model` unset raises the protein-model-missing error kind, and with
both set raises neither. -/
theorem claim_C4_construction_checks :
    manager_init ⟨false, false⟩ = Except.error CompathManagerError.pathwayModelError ∧
    manager_init ⟨false, true⟩ = Except.error CompathManagerError.pathwayModelError ∧
    manager_init ⟨true, false⟩ = Except.error CompathManagerError.proteinModelError ∧
    manager_init ⟨true, true⟩ = Except.ok () :=
  ⟨rfl, rfl, rfl, rfl⟩

/-- C5: an empty input symbol collection, and more generally any input for
which the bulk protein lookup resolves no protein, makes `query_gene_set`
return the empty mapping rather than an error. -/
theorem claim_C5_empty_input (db : DB) (S : List String) :
    query_gene_set db [] = Except.ok [] ∧
    (_query_proteins_in_hgnc_list db S = [] → query_gene_set db S = Except.ok []) := by
  constructor
  · have h : _query_proteins_in_hgnc_list db [] = [] := by
      simp [_query_proteins_in_hgnc_list]
    unfold query_gene_set
    rw [h]
    rfl
  · intro h
    unfold query_gene_set
    rw [h]
    rfl

/-- Witness for C5 at a concrete input: the fixture database contains no
protein with symbol HGNC:99, and the query returns the empty mapping. -/
theorem claim_C5_empty_input_witness :
    _query_proteins_in_hgnc_list fixtureDB ["HGNC:99"] = [] ∧
    query_gene_set fixtureDB ["HGNC:99"] = Except.ok [] :=
  ⟨by decide, (claim_C5_empty_input fixtureDB ["HGNC:99"]).2 (by decide)⟩

/-- C7: duplicate symbols in the input have no effect, `query_gene_set` on a
list equals `query_gene_set` on its deduplication. -/
theorem claim_C7_duplicate_symbols (db : DB) (S : List String) :
    query_gene_set db S = query_gene_set db S.dedup := by
  have h : _query_proteins_in_hgnc_list db S = _query_proteins_in_hgnc_list db S.dedup := by
    unfold _query_proteins_in_hgnc_list
    refine List.filter_congr ?_
    intro p _
    simp
  unfold query_gene_set
  rw [h]

/-- C9: `is_populated` is true exactly when the database holds at least one
pathway; the protein table is never consulted, so a database with proteins
but no pathways counts as not populated. -/
theorem claim_C9_is_populated (ps ps2 : List Protein) (pws : List Pathway) :
    (is_populated ⟨ps, pws⟩ = true ↔ pws ≠ []) ∧
    is_populated ⟨ps, pws⟩ = is_populated ⟨ps2, pws⟩ ∧
    is_populated ⟨ps, []⟩ = false := by
  refine ⟨?_, rfl, rfl⟩
  simp [is_populated, count_pathways, List.length_pos]

/-- Witness for C9 at a concrete input: a database holding a protein but no
pathway is reported as not populated. -/
theorem claim_C9_is_populated_witness : is_populated ⟨[p1], []⟩ = false :=
  (claim_C9_is_populated [p1] [] []).2.2

/-- C10: `get_pathway_by_name` returns `none` exactly when no stored pathway
bears the name, and otherwise the first pathway of the filtered query result,
also when several distinct pathways share the name. -/
theorem claim_C10_get_pathway_by_name (db : DB) (nm : String) :
    (get_pathway_by_name db nm = none ↔ ∀ pw ∈ db.pathways, pw.name ≠ nm) ∧
    get_pathway_by_name db nm = db.pathways.find? (fun pw => decide (pw.name = nm)) ∧
    (∀ pw, get_pathway_by_name db nm = some pw → pw ∈ db.pathways ∧ pw.name = nm) := by
  have hf : get_pathway_by_name db nm = db.pathways.find? (fun pw => decide (pw.name = nm)) :=
    head?_filter_eq_find? _ _
  refine ⟨?_, hf, ?_⟩
  · rw [hf, List.find?_eq_none]
    simp
  · intro pw h
    rw [hf] at h
    exact ⟨List.mem_of_find?_eq_some h, by simpa using List.find?_some h⟩

/-- Witness for C10 at a concrete input: two distinct pathways of
`collideDB` share the name N, and the first one is returned. -/
theorem claim_C10_get_pathway_by_name_witness :
    collideDB.pathways.length = 2 ∧
    get_pathway_by_name collideDB "N" = some ⟨"a", "N", [pX]⟩ ∧
    (⟨"a", "N", [pX]⟩ : Pathway) ∈ collideDB.pathways ∧
    (⟨"a", "N", [pX]⟩ : Pathway).name = "N" := by
  refine ⟨rfl, ?_, ?_⟩
  · rw [(claim_C10_get_pathway_by_name collideDB "N").2.1]
    rfl
  · exact (claim_C10_get_pathway_by_name collideDB "N").2.2 ⟨"a", "N", [pX]⟩
      (by rw [(claim_C10_get_pathway_by_name collideDB "N").2.1]; rfl)

/-- C2 counterexample: on the fixture dataset the record for pathway B2
(identifier test:1) has mapped protein count 2, not 1 as claimed — both
resolved proteins P3 (symbol HGNC:2) and P4 (symbol HGNC:3) belong to B2. -/
theorem claim_C2_counterexample :
    (query_gene_set fixtureDB ["HGNC:2", "HGNC:3"]).toOption.bind
        (fun m => (dict_lookup m "test:1").map EnrichmentRecord.mapped_proteins) = some 2 ∧
    ¬ (query_gene_set fixtureDB ["HGNC:2", "HGNC:3"]).toOption.bind
        (fun m => (dict_lookup m "test:1").map EnrichmentRecord.mapped_proteins) = some 1 := by
  refine ⟨by decide, by decide⟩

/-- C2 amended: on the fixture dataset, `query_gene_set` on the symbols
HGNC:2 and HGNC:3 returns exactly two records, B1 with mapped protein count 1
and pathway size 3, and B2 with mapped protein count 2 and pathway size 2. -/
theorem claim_C2_fixture_query :
    query_gene_set fixtureDB ["HGNC:2", "HGNC:3"] =
      Except.ok
        [("test:0",
          { pathway_id := "test:0", pathway_name := "Pathway 0", mapped_proteins := 1,
            pathway_size := 3, pathway_gene_set := {"HGNC:0", "HGNC:1", "HGNC:2"} }),
         ("test:1",
          { pathway_id := "test:1", pathway_name := "Pathway 1", mapped_proteins := 2,
            pathway_size := 2, pathway_gene_set := {"HGNC:2", "HGNC:3"} })] := by
  decide

/-- Folding first-occurrence insertion over a list preserves and collects
membership. -/
theorem mem_foldl_insert (l : List String) :
    ∀ (acc : List String) (x : String),
      (x ∈ l.foldl (fun acc y => if y ∈ acc then acc else acc ++ [y]) acc ↔
        x ∈ acc ∨ x ∈ l) := by
  induction l with
  | nil => simp
  | cons y t ih =>
    intro acc x
    rw [List.foldl_cons, ih]
    by_cases hy : y ∈ acc
    · rw [if_pos hy]
      simp only [List.mem_cons]
      constructor
      · rintro (ha | ht)
        · exact Or.inl ha
        · exact Or.inr (Or.inr ht)
      · rintro (ha | rfl | ht)
        · exact Or.inl ha
        · exact Or.inl hy
        · exact Or.inr ht
    · rw [if_neg hy]
      simp [or_assoc]

/-- The keys of a Python `Counter` are the distinct elements of its input. -/
theorem mem_ordered_keys {l : List String} {x : String} :
    x ∈ ordered_keys l ↔ x ∈ l := by
  unfold ordered_keys
  rw [mem_foldl_insert]
  simp

/-- Every item of a `Counter` pairs a member of the input with its
multiplicity there. -/
theorem counter_items_count {l : List String} {pid : String} {c : Nat}
    (h : (pid, c) ∈ counter_items l) : c = l.count pid ∧ pid ∈ l := by
  unfold counter_items at h
  rcases List.mem_map.mp h with ⟨k, hk, heq⟩
  obtain ⟨rfl, rfl⟩ := Prod.mk.injEq .. ▸ heq
  exact ⟨rfl, mem_ordered_keys.mp hk⟩

/-- Every member of the input appears among the items of its `Counter`. -/
theorem counter_items_mem_of_mem {l : List String} {pid : String} (h : pid ∈ l) :
    (pid, l.count pid) ∈ counter_items l :=
  List.mem_map.mpr ⟨pid, mem_ordered_keys.mpr h, rfl⟩

/-- If the `query_gene_set` result loop succeeds, every counted pathway
identifier resolved to a pathway row. -/
theorem query_gene_set_aux_ok_items {db : DB} :
    ∀ {items : List (String × Nat)} {m : List (String × EnrichmentRecord)},
      query_gene_set_aux db items = Except.ok m →
      ∀ pid cnt, (pid, cnt) ∈ items →
        ∃ pw, get_pathway_by_id db pid = Except.ok (some pw) := by
  intro items
  induction items with
  | nil => intro m _ pid cnt hmem; cases hmem
  | cons head rest ih =>
    obtain ⟨q, c⟩ := head
    intro m h pid cnt hmem
    cases hq : get_pathway_by_id db q with
    | error e => rw [query_gene_set_aux, hq] at h; cases h
    | ok o =>
      cases o with
      | none => rw [query_gene_set_aux, hq] at h; cases h
      | some pw =>
        rcases List.mem_cons.mp hmem with h1 | h2
        · obtain ⟨rfl, rfl⟩ := Prod.mk.injEq .. ▸ h1
          exact ⟨pw, hq⟩
        · rw [query_gene_set_aux, hq] at h
          cases ht : query_gene_set_aux db rest with
          | error e => rw [ht] at h; cases h
          | ok tail => exact ih ht pid cnt h2

/-- If the `query_gene_set` result loop succeeds, every emitted record was
built from a resolved pathway row and from its count among the items. -/
theorem query_gene_set_aux_ok_mem {db : DB} :
    ∀ {items : List (String × Nat)} {m : List (String × EnrichmentRecord)},
      query_gene_set_aux db items = Except.ok m →
      ∀ kv ∈ m, ∃ pw,
        (kv.1, kv.2.mapped_proteins) ∈ items ∧
        get_pathway_by_id db kv.1 = Except.ok (some pw) ∧
        kv.2 = ⟨kv.1, pw.name, kv.2.mapped_proteins, pw.get_gene_set.card,
                pw.get_gene_set⟩ := by
  intro items
  induction items with
  | nil =>
    intro m h kv hkv
    cases h
    cases hkv
  | cons head rest ih =>
    obtain ⟨q, c⟩ := head
    intro m h kv hkv
    cases hq : get_pathway_by_id db q with
    | error e => rw [query_gene_set_aux, hq] at h; cases h
    | ok o =>
      cases o with
      | none => rw [query_gene_set_aux, hq] at h; cases h
      | some pw =>
        rw [query_gene_set_aux, hq] at h
        cases ht : query_gene_set_aux db rest with
        | error e => rw [ht] at h; cases h
        | ok tail =>
          rw [ht] at h
          cases h
          rcases List.mem_cons.mp hkv with h1 | h2
          · subst h1
            exact ⟨pw, List.mem_cons_self _ _, hq, rfl⟩
          · obtain ⟨pw2, hi, hl, hr⟩ := ih ht kv h2
            exact ⟨pw2, List.mem_cons_of_mem _ hi, hl, hr⟩

/-- Counting one identifier across the flattened per-protein identifier lists
is counting the proteins whose list contains it, provided each list holds the
identifier at most once (no duplicate membership rows). -/
theorem count_flatten_filter (pid : String) :
    ∀ (ps : List Protein), (∀ p ∈ ps, p.pathway_ids.Nodup) →
      ((ps.map Protein.get_pathways_ids).flatten).count pid =
        (ps.filter (fun p => decide (pid ∈ p.pathway_ids))).length := by
  intro ps
  induction ps with
  | nil => intro _; rfl
  | cons p t ih =>
    intro h
    rw [List.map_cons, List.flatten_cons, List.count_append, List.filter_cons]
    have hih := ih (fun q hq => h q (List.mem_cons_of_mem _ hq))
    by_cases hp : pid ∈ p.pathway_ids
    · rw [show Protein.get_pathways_ids p = p.pathway_ids from rfl,
        List.count_eq_one_of_mem (h p (List.mem_cons_self _ _)) hp]
      simp [hp, hih, Nat.add_comm]
    · rw [show Protein.get_pathways_ids p = p.pathway_ids from rfl,
        List.count_eq_zero_of_not_mem hp]
      simp [hp, hih]

/-- C1: whenever `query_gene_set` returns a mapping (over a database whose
protein rows are distinct and whose per-protein pathway-identifier lists are
duplicate-free, as relational membership rows are), every record carries as
`mapped_proteins` the number of distinct resolved proteins whose
pathway-identifier list contains the pathway identifier of the record, and as
`pathway_size` the cardinality of the full gene set of that pathway,
independent of the queried symbols. -/
theorem claim_C1_record_counts (db : DB) (S : List String)
    (m : List (String × EnrichmentRecord))
    (hps : db.proteins.Nodup)
    (hids : ∀ p ∈ db.proteins, p.pathway_ids.Nodup)
    (h : query_gene_set db S = Except.ok m) :
    ∀ kv ∈ m,
      kv.2.mapped_proteins =
        ((_query_proteins_in_hgnc_list db S).filter
            (fun p => decide (kv.2.pathway_id ∈ p.pathway_ids))).toFinset.card ∧
      ∃ pw, get_pathway_by_id db kv.2.pathway_id = Except.ok (some pw) ∧
        kv.2.pathway_size = pw.get_gene_set.card := by
  intro kv hkv
  unfold query_gene_set at h
  obtain ⟨pw, hitem, hlook, hrec⟩ := query_gene_set_aux_ok_mem h kv hkv
  obtain ⟨hc, -⟩ := counter_items_count hitem
  have hresolved : (_query_proteins_in_hgnc_list db S).Nodup := hps.filter _
  have hids2 : ∀ p ∈ _query_proteins_in_hgnc_list db S, p.pathway_ids.Nodup :=
    fun p hp => hids p (List.mem_of_mem_filter hp)
  have hcount := count_flatten_filter kv.1 (_query_proteins_in_hgnc_list db S) hids2
  have hpid : kv.2.pathway_id = kv.1 := by rw [hrec]
  constructor
  · rw [hpid, List.toFinset_card_of_nodup (hresolved.filter _), hc, hcount]
  · refine ⟨pw, by rw [hpid]; exact hlook, by rw [hrec]⟩

/-- The record for pathway B2 in the fixture query result. -/
def fixtureRecordB2 : EnrichmentRecord :=
  { pathway_id := "test:1", pathway_name := "Pathway 1", mapped_proteins := 2,
    pathway_size := 2, pathway_gene_set := {"HGNC:2", "HGNC:3"} }

/-- The full fixture query result for the symbols HGNC:2 and HGNC:3. -/
def fixtureResult : List (String × EnrichmentRecord) :=
  [("test:0",
    { pathway_id := "test:0", pathway_name := "Pathway 0", mapped_proteins := 1,
      pathway_size := 3, pathway_gene_set := {"HGNC:0", "HGNC:1", "HGNC:2"} }),
   ("test:1", fixtureRecordB2)]

/-- Witness for C1 at a concrete input: the fixture database satisfies both
duplicate-freeness hypotheses, the fixture query succeeds, and the returned
record for pathway B2 satisfies the counting property. -/
theorem claim_C1_record_counts_witness :
    fixtureRecordB2.mapped_proteins =
      ((_query_proteins_in_hgnc_list fixtureDB ["HGNC:2", "HGNC:3"]).filter
          (fun p => decide (fixtureRecordB2.pathway_id ∈ p.pathway_ids))).toFinset.card ∧
    ∃ pw, get_pathway_by_id fixtureDB fixtureRecordB2.pathway_id = Except.ok (some pw) ∧
      fixtureRecordB2.pathway_size = pw.get_gene_set.card :=
  claim_C1_record_counts fixtureDB ["HGNC:2", "HGNC:3"] fixtureResult
    (by decide) (by decide) (by decide) ("test:1", fixtureRecordB2) (by decide)

/-- C3 counterexample: a dangling pathway reference makes `query_gene_set`
fail with the embedded `AttributeError` (there is no `None` check in its
loop), instead of being silently skipped as the claim states. -/
theorem claim_C3_counterexample :
    query_gene_set danglingDB ["G"] = Except.error DBError.noneAttributeError := by
  decide

/-- C3 amended: when some resolved protein references a pathway identifier
that resolves to no pathway row, `query_gene_set` does not return a mapping
at all — the dangling reference raises instead of being skipped (only
`query_gene` has the `None` check). -/
theorem claim_C3_dangling_raises (db : DB) (S : List String)
    (h : ∃ p ∈ _query_proteins_in_hgnc_list db S, ∃ pid ∈ p.pathway_ids,
          get_pathway_by_id db pid = Except.ok none) :
    (query_gene_set db S).isOk = false := by
  rcases h with ⟨p, hp, pid, hpid, hnone⟩
  cases hres : query_gene_set db S with
  | error e => rfl
  | ok m =>
    exfalso
    have hjoin : pid ∈ ((_query_proteins_in_hgnc_list db S).map
        Protein.get_pathways_ids).flatten :=
      List.mem_flatten.mpr ⟨p.pathway_ids, List.mem_map.mpr ⟨p, hp, rfl⟩, hpid⟩
    have hitem := counter_items_mem_of_mem hjoin
    unfold query_gene_set at hres
    obtain ⟨pw, hpw⟩ := query_gene_set_aux_ok_items hres pid _ hitem
    rw [hnone] at hpw
    cases hpw

/-- Witness for C3 at a concrete input: the dangling database satisfies the
hypothesis and its query yields no mapping. -/
theorem claim_C3_dangling_raises_witness :
    (query_gene_set danglingDB ["G"]).isOk = false :=
  claim_C3_dangling_raises danglingDB ["G"]
    ⟨⟨1, "G", ["ghost"]⟩, by decide, "ghost", by decide, by decide⟩

/-- When every pathway identifier in the list looks up without a
multiple-results error, the `query_gene` loop returns one triple per
identifier that resolves to a pathway row, silently dropping the
unresolvable ones. -/
theorem query_gene_aux_eq_filterMap (db : DB) :
    ∀ (pids : List String),
      (∀ pid ∈ pids, (get_pathway_by_id db pid).isOk = true) →
      query_gene_aux db pids = Except.ok (pids.filterMap (fun pid =>
        match get_pathway_by_id db pid with
        | Except.ok (some pw) => some (pid, pw.name, pw.get_gene_set.card)
        | _ => none)) := by
  intro pids
  induction pids with
  | nil => intro _; rfl
  | cons q t ih =>
    intro h
    have hq := h q (List.mem_cons_self _ _)
    rw [List.filterMap_cons]
    cases hql : get_pathway_by_id db q with
    | error e => rw [hql] at hq; cases hq
    | ok o =>
      have ht := ih (fun pid hp => h pid (List.mem_cons_of_mem _ hp))
      cases o with
      | none => simp only [query_gene_aux]; rw [hql, ht]
      | some pw => simp only [query_gene_aux]; rw [hql, ht]

/-- C6 counterexample: on the fixture database the symbol HGNC:99 matches no
protein, and `query_gene` fails with the embedded `AttributeError` raised by
calling `get_pathways_ids` on `None`, contradicting the claim that it does
not raise. -/
theorem claim_C6_counterexample :
    query_gene fixtureDB "HGNC:99" = Except.error DBError.noneAttributeError := by
  decide

/-- C6 amended: for a symbol matching no protein, `query_gene` fails with an
attribute error on `None` instead of returning; for a symbol matching exactly
one protein whose pathway identifiers all look up cleanly, it returns one
`(pathway_id, pathway_name, pathway_size)` triple per pathway identifier of
the protein that resolves to a pathway row, skipping dangling ones. -/
theorem claim_C6_query_gene (db : DB) (s : String) :
    (get_protein_by_hgnc_symbol db s = Except.ok none →
      query_gene db s = Except.error DBError.noneAttributeError) ∧
    (∀ p, get_protein_by_hgnc_symbol db s = Except.ok (some p) →
      (∀ pid ∈ p.pathway_ids, (get_pathway_by_id db pid).isOk = true) →
      query_gene db s = Except.ok (p.pathway_ids.filterMap (fun pid =>
        match get_pathway_by_id db pid with
        | Except.ok (some pw) => some (pid, pw.name, pw.get_gene_set.card)
        | _ => none))) := by
  constructor
  · intro h
    unfold query_gene
    rw [h]
  · intro p hp hids
    unfold query_gene
    rw [hp]
    exact query_gene_aux_eq_filterMap db p.pathway_ids hids

/-- Witness for C6 at a concrete input: the symbol HGNC:2 resolves to the
fixture protein P3, whose two pathway identifiers both resolve, and the query
returns one triple per pathway. -/
theorem claim_C6_query_gene_witness :
    query_gene fixtureDB "HGNC:2" =
      Except.ok [("test:0", "Pathway 0", 3), ("test:1", "Pathway 1", 2)] := by
  have h := (claim_C6_query_gene fixtureDB "HGNC:2").2 p3 (by decide) (by decide)
  rw [h]
  decide

/-- Looking up a key after a dict insertion returns the inserted value at
that key and is unchanged elsewhere. -/
theorem lookup_dict_insert {α : Type} (d : List (String × α)) (k nm : String) (v : α) :
    dict_lookup (dict_insert d k v) nm = if nm = k then some v else dict_lookup d nm := by
  induction d with
  | nil => rfl
  | cons head rest ih =>
    obtain ⟨k2, v2⟩ := head
    by_cases h2 : k2 = k
    · subst h2
      rw [dict_insert, if_pos rfl]
      by_cases hnm : nm = k2 <;> simp [dict_lookup, hnm]
    · rw [dict_insert, if_neg h2]
      by_cases hnm : nm = k2
      · subst hnm
        rw [dict_lookup, if_pos rfl, if_neg h2, dict_lookup, if_pos rfl]
      · rw [dict_lookup, if_neg hnm, ih]
        by_cases hk : nm = k <;> simp [dict_lookup, hk, hnm]

/-- The keys after a dict insertion: unchanged when the key was present,
extended by the key otherwise. -/
theorem keys_dict_insert {α : Type} (d : List (String × α)) (k : String) (v : α) :
    (dict_insert d k v).map Prod.fst =
      if k ∈ d.map Prod.fst then d.map Prod.fst else d.map Prod.fst ++ [k] := by
  induction d with
  | nil => rfl
  | cons head rest ih =>
    obtain ⟨k2, v2⟩ := head
    by_cases h2 : k2 = k
    · subst h2
      rw [dict_insert, if_pos rfl]
      simp
    · rw [dict_insert, if_neg h2]
      simp only [List.map_cons, List.mem_cons, ih]
      by_cases hk : k ∈ rest.map Prod.fst
      · rw [if_pos hk, if_pos (Or.inr hk)]
      · rw [if_neg hk, if_neg (by rintro (h | h); exact h2 h.symm; exact hk h)]
        simp

/-- Dict insertion preserves distinctness of the keys. -/
theorem nodup_keys_dict_insert {α : Type} {d : List (String × α)} {k : String} {v : α}
    (h : (d.map Prod.fst).Nodup) : ((dict_insert d k v).map Prod.fst).Nodup := by
  rw [keys_dict_insert]
  by_cases hk : k ∈ d.map Prod.fst
  · rwa [if_pos hk]
  · rw [if_neg hk]
    simp [List.nodup_append, h, hk]

/-- Looking up a name in the folded export dictionary finds the symbol set of
the last stored pathway bearing that name, or falls back to the
accumulator. -/
theorem export_foldl_lookup (nm : String) :
    ∀ (l : List Pathway) (acc : List (String × Finset String)),
      dict_lookup (l.foldl (fun a pw => dict_insert a pw.name (pathway_symbol_set pw)) acc) nm =
        match last_with_name nm l with
        | some pw => some (pathway_symbol_set pw)
        | none => dict_lookup acc nm := by
  intro l
  induction l with
  | nil => intro acc; rfl
  | cons pw t ih =>
    intro acc
    rw [List.foldl_cons, ih]
    cases hl : last_with_name nm t with
    | some pw2 => rw [last_with_name, hl]
    | none =>
      rw [last_with_name, hl, lookup_dict_insert]
      by_cases h : pw.name = nm
      · rw [if_pos h, if_pos h.symm]
      · rw [if_neg h, if_neg (fun hc => h hc.symm)]

/-- Membership among the keys of the folded export dictionary is membership
among the accumulator keys or the pathway names. -/
theorem export_foldl_keys_mem (nm : String) :
    ∀ (l : List Pathway) (acc : List (String × Finset String)),
      (nm ∈ (l.foldl (fun a pw => dict_insert a pw.name (pathway_symbol_set pw)) acc).map
          Prod.fst ↔
        nm ∈ acc.map Prod.fst ∨ nm ∈ l.map Pathway.name) := by
  intro l
  induction l with
  | nil => simp
  | cons pw t ih =>
    intro acc
    rw [List.foldl_cons, ih, keys_dict_insert]
    by_cases h : pw.name ∈ acc.map Prod.fst
    · rw [if_pos h]
      simp only [List.map_cons, List.mem_cons]
      constructor
      · rintro (ha | ht)
        · exact Or.inl ha
        · exact Or.inr (Or.inr ht)
      · rintro (ha | rfl | ht)
        · exact Or.inl ha
        · exact Or.inl h
        · exact Or.inr ht
    · rw [if_neg h]
      simp [or_assoc]

/-- The folded export dictionary keeps its keys distinct. -/
theorem export_foldl_keys_nodup :
    ∀ (l : List Pathway) (acc : List (String × Finset String)),
      (acc.map Prod.fst).Nodup →
      ((l.foldl (fun a pw => dict_insert a pw.name (pathway_symbol_set pw)) acc).map
          Prod.fst).Nodup := by
  intro l
  induction l with
  | nil => intro acc h; exact h
  | cons pw t ih =>
    intro acc h
    rw [List.foldl_cons]
    exact ih _ (nodup_keys_dict_insert h)

/-- C8 counterexample: on a database with two distinct pathways sharing the
name N, `export_gene_sets` holds a single entry, not one per pathway, and
that entry carries the gene set of the later pathway only. -/
theorem claim_C8_counterexample :
    collideDB.pathways.length = 2 ∧
    (export_gene_sets collideDB).length = 1 ∧
    dict_lookup (export_gene_sets collideDB) "N" = some {"Y"} ∧
    pathway_symbol_set ⟨"a", "N", [pX]⟩ = {"X"} := by
  refine ⟨rfl, rfl, by decide, by decide⟩

/-- C8 amended: `export_gene_sets` returns one entry per distinct pathway
name (its keys are duplicate-free and are exactly the stored pathway names),
each name mapping to the distinct gene symbols of the member proteins of the
last stored pathway bearing it; on the fixture dataset, whose names are
unique, this is exactly the claimed two-entry mapping. -/
theorem claim_C8_export_gene_sets :
    (∀ (db : DB) (nm : String),
        dict_lookup (export_gene_sets db) nm =
          (last_with_name nm db.pathways).map pathway_symbol_set) ∧
    (∀ db : DB, ((export_gene_sets db).map Prod.fst).Nodup) ∧
    (∀ (db : DB) (nm : String),
        nm ∈ (export_gene_sets db).map Prod.fst ↔ nm ∈ db.pathways.map Pathway.name) ∧
    export_gene_sets fixtureDB =
      [("Pathway 0", {"HGNC:0", "HGNC:1", "HGNC:2"}),
       ("Pathway 1", {"HGNC:2", "HGNC:3"})] := by
  refine ⟨?_, ?_, ?_, by decide⟩
  · intro db nm
    unfold export_gene_sets
    rw [export_foldl_lookup]
    cases last_with_name nm db.pathways <;> rfl
  · intro db
    exact export_foldl_keys_nodup db.pathways [] (by simp)
  · intro db nm
    unfold export_gene_sets
    rw [export_foldl_keys_mem]
    simp

/-- Witness for C8 at a concrete input, applying the lookup characterization
on the duplicate-name database: the shared name N maps to the symbol set of
the later pathway. -/
theorem claim_C8_export_gene_sets_witness :
    dict_lookup (export_gene_sets collideDB) "N" =
      some (pathway_symbol_set ⟨"b", "N", [pY]⟩) := by
  rw [claim_C8_export_gene_sets.1 collideDB "N"]
  decide

end CompathUtils
